import Mathlib

/-!
Shallow embedding of `control-plane/subcommand/server-acl-init/servers.go`
(consul-k8s server ACL bootstrap and per-server token provisioning) and proofs
about its behaviour.

The Go code drives a sequence of external calls (Consul client construction,
the `/v1/acl/bootstrap` API, Kubernetes secret creation, policy upsert, token
list/create, agent-token update), each of the mutating ones wrapped in the
retry driver `untilSucceeds`.  The embedding makes the environment explicit:
every external call's outcome is supplied as data (lists of per-attempt
outcomes for retried calls), and every function additionally returns the trace
of calls it issued, so that claims about which calls happen (and how often)
are statements about the trace.
-/

/-- Substring test on character lists: `charsPrefix n h` is true when `n` is a
prefix of `h`. -/
def charsPrefix : List Char → List Char → Bool
  | [], _ => true
  | _ :: _, [] => false
  | a :: as, b :: bs => a == b && charsPrefix as bs

/-- Substring test on character lists: `charsInfix n h` is true when `n` occurs
contiguously inside `h`. -/
def charsInfix (needle : List Char) : List Char → Bool
  | [] => charsPrefix needle []
  | c :: rest => charsPrefix needle (c :: rest) || charsInfix needle rest

/-- Shallow embedding of Go `strings.Contains s sub`. -/
def strContains (s sub : String) : Bool := charsInfix sub.data s.data

/-- The fields of `api.Config` that `servers.go` touches: `config.Address`,
`config.Token` and the HTTP client timeout (`config.HttpClient = &http.Client{Timeout: ...}`,
defaulting to the global 5-second consul API timeout). -/
structure APIClientConfig where
  address : String
  token : String
  httpClientTimeoutSeconds : Nat
deriving DecidableEq, Repr

/-- The one field of the bootstrap response the code reads: `bootstrapResp.SecretID`. -/
structure BootstrapResp where
  SecretID : String
deriving DecidableEq, Repr

/-- The fields of `api.ACLTokenListEntry` the code reads: `Description`,
`Policies` (the list of policy-link names) and `SecretID`. -/
structure TokenEntry where
  Description : String
  Policies : List String
  SecretID : String
deriving DecidableEq, Repr

/-- The `api.ACLPolicy` literal built in `setServerPolicy`. -/
structure ACLPolicy where
  Name : String
  Description : String
  Rules : String
deriving DecidableEq, Repr

/-- One external call issued by the code; the trace of a run is a `List Call`.
Retried operations contribute one entry per attempt. -/
inductive Call where
  | newClient (cfg : APIClientConfig)
  | bootstrapCall
  | secretWrite (name value : String)
  | policyUpsert (name : String)
  | tokenList
  | tokenCreate (host desc : String) (policies : List String)
  | agentTokenUpdate (host secret : String)
deriving DecidableEq, Repr

/-- Result of a run of one of the embedded functions: `ok` mirrors a nil-error
Go return, `err` a non-nil error return, and `stuck` the state in which a
retry loop has consumed every outcome the environment supplies and is still
retrying (the Go loop would simply not have returned yet). -/
inductive Outcome (α : Type) where
  | ok (a : α)
  | err (msg : String)
  | stuck
deriving DecidableEq, Repr

/-- Result of one retry loop: the closure returned nil and the driver exits
(`done`), or the supplied outcomes are exhausted and the driver is still
retrying (`running`). -/
inductive LoopResult (α : Type) where
  | done (a : α)
  | running
deriving DecidableEq, Repr

/-- Modelled from the spec: the RetryDriver (`untilSucceeds`, defined outside
this source slice) repeatedly invokes a closure, returning only once the
closure returns nil; every non-nil closure error is logged and retried.  For a
closure with no unrecoverable escalation the attempt outcomes are supplied as
a list; the first `ok` stops the loop and an exhausted list means the driver
is still retrying. -/
def retryLoop {α : Type} : List (Except String α) → LoopResult α
  | [] => .running
  | Except.ok a :: _ => .done a
  | Except.error _ :: rest => retryLoop rest

/-- Number of attempts the retry loop consumes (one issued call per attempt). -/
def retryLoopCalls {α : Type} : List (Except String α) → Nat
  | [] => 0
  | Except.ok _ :: _ => 1
  | Except.error _ :: rest => retryLoopCalls rest + 1

/-- The fatal message built at servers.go:81-83 when bootstrap returns 403 with
no stored token. -/
def rootCredentialLostMsg : String :=
  "ACLs already bootstrapped but the ACL token was not written to a Kubernetes secret." ++
  " We can\x27t proceed because the bootstrap token is lost." ++
  " You must reset ACLs."

/-- The fatal message built at servers.go:89 when the connection is refused. -/
def dnsRestartMsg : String := "Cannot reach consul server via DNS, restarting"

/-- Shallow embedding of `isNoLeaderErr` (servers.go:236-239): the error text
contains the 500 response code and the legacy-ACL-mode backend message. -/
def isNoLeaderErr (e : String) : Bool :=
  strContains e "Unexpected response code: 500" &&
  strContains e "The ACL system is currently in legacy mode."

/-- How one bootstrap attempt's outcome steers the retry loop, following the
closure at servers.go:72-99: success stores the SecretID and stops; a 403
or connection-refused error sets `unrecoverableErr` and stops; a no-leader
error is re-wrapped and retried; anything else is retried as-is. -/
inductive AttemptStep where
  | success (tok : String)
  | stopUnrecoverable (msg : String)
  | retryWith (errMsg : String)
deriving DecidableEq, Repr

/-- Classification performed by the bootstrap closure (servers.go:72-99),
in the source's if-order: 403 first, then connection refused, then no leader. -/
def classifyBootstrapAttempt : Except String BootstrapResp → AttemptStep
  | Except.ok resp => .success resp.SecretID
  | Except.error e =>
    if strContains e "Unexpected response code: 403" then
      .stopUnrecoverable rootCredentialLostMsg
    else if strContains e "connection refused" then
      .stopUnrecoverable dnsRestartMsg
    else if isNoLeaderErr e then
      .retryWith ("no leader elected: " ++ e)
    else
      .retryWith e

/-- Modelled from the spec: the RetryDriver run of the bootstrap closure
(servers.go:71-99).  It consumes the supplied attempt outcomes until the
closure returns nil, which happens on success (token captured) or when the
closure sets `unrecoverableErr` (captured as `Except.error`); retryable
outcomes continue the loop. -/
def runBootstrapLoop : List (Except String BootstrapResp) → LoopResult (Except String String)
  | [] => .running
  | r :: rest =>
    match classifyBootstrapAttempt r with
    | .success tok => .done (Except.ok tok)
    | .stopUnrecoverable msg => .done (Except.error msg)
    | .retryWith _ => runBootstrapLoop rest

/-- Number of bootstrap API attempts the loop consumes. -/
def bootstrapLoopCalls : List (Except String BootstrapResp) → Nat
  | [] => 0
  | r :: rest =>
    match classifyBootstrapAttempt r with
    | .retryWith _ => bootstrapLoopCalls rest + 1
    | _ => 1

/-- The Kubernetes secrets of the namespace, as pairs of secret name and the
value stored under the ACL token key. -/
abbrev SecretStore := List (String × String)

/-- A secret with the given name exists in the store. -/
def secretExists (store : SecretStore) (name : String) : Bool :=
  store.any (fun p => p.1 == name)

/-- Shallow embedding of `clientset.CoreV1().Secrets(ns).Create` as used at
servers.go:110-120: creating a secret whose name already exists fails with an
already-exists error; otherwise the secret is added. -/
def createSecret (store : SecretStore) (name value : String) : Except String SecretStore :=
  if secretExists store name then
    Except.error ("secrets \x22" ++ name ++ "\x22 already exists")
  else
    Except.ok ((name, value) :: store)

/-- Modelled from the spec: the RetryDriver run of the secret-write closure
(servers.go:108-121).  Each list element says whether that attempt's
Kubernetes API call failed transiently before reaching the store; a
non-transient attempt performs `createSecret`, whose own error (name already
taken) is also retried.  An exhausted list means the driver is still
retrying. -/
def runWriteLoop : List Bool → SecretStore → String → String → LoopResult SecretStore
  | [], _, _, _ => .running
  | transient :: rest, store, n, v =>
    if transient then runWriteLoop rest store n v
    else
      match createSecret store n v with
      | Except.ok s => .done s
      | Except.error _ => runWriteLoop rest store n v

/-- Number of secret-write attempts the loop consumes. -/
def writeLoopCalls : List Bool → SecretStore → String → String → Nat
  | [], _, _, _ => 0
  | transient :: rest, store, n, v =>
    if transient then writeLoopCalls rest store n v + 1
    else
      match createSecret store n v with
      | Except.ok _ => 1
      | Except.error _ => writeLoopCalls rest store n v + 1

/-- Value of a stored secret under the ACL token key. -/
def lookupSecret (store : SecretStore) (name : String) : Option String :=
  match store.find? (fun p => p.1 == name) with
  | some p => some p.2
  | none => none

/-- The environment of one run: the command's configuration (base client
config, HTTP port, the set-server-tokens flag), the current Kubernetes store,
and the outcome every external call would have (per-attempt lists for the
retried ones, keyed by host for the per-server ones). -/
structure Env where
  baseConfig : APIClientConfig
  httpPort : Nat
  flagSetServerTokens : Bool
  k8sStore : SecretStore
  newClient : APIClientConfig → Option String
  bootstrapAttempts : List (Except String BootstrapResp)
  writeAttempts : List Bool
  agentRules : Except String String
  policyAttempts : List (Except String Unit)
  tokenListResult : Except String (List TokenEntry)
  tokenCreateAttempts : String → List (Except String String)
  agentTokenUpdateAttempts : String → List (Except String Unit)

/-- Shallow embedding of `fmt.Sprintf("%s:%d", ip, c.consulFlags.HTTPPort)`. -/
def serverHTTPAddr (env : Env) (ip : String) : String :=
  ip ++ ":" ++ toString env.httpPort

/-- The client config built at servers.go:51-61 for the bootstrap call: the
base config with the address set to the first server and the HTTP client
timeout raised to 5 minutes (replacing the default 5-second API timeout). -/
def bootstrapClientConfig (base : APIClientConfig) (firstServerAddr : String) : APIClientConfig :=
  { base with address := firstServerAddr, httpClientTimeoutSeconds := 5 * 60 }

/-- Shallow embedding of `bootstrapACLs` (servers.go:50-123): build the
long-timeout client, run the retried bootstrap call, then (on success) run the
retried write of the bootstrap token to the Kubernetes secret.  Returns the
outcome (the token on success), the resulting store, and the trace of calls. -/
def bootstrapACLs (env : Env) (firstServerAddr bootTokenSecretName : String) :
    Outcome String × SecretStore × List Call :=
  let config := bootstrapClientConfig env.baseConfig firstServerAddr
  match env.newClient config with
  | some e =>
      (.err ("creating Consul client for address " ++ firstServerAddr ++ ": " ++ e),
       env.k8sStore, [Call.newClient config])
  | none =>
    let pre : List Call :=
      Call.newClient config ::
        List.replicate (bootstrapLoopCalls env.bootstrapAttempts) Call.bootstrapCall
    match runBootstrapLoop env.bootstrapAttempts with
    | .running => (.stuck, env.k8sStore, pre)
    | .done (Except.error msg) => (.err msg, env.k8sStore, pre)
    | .done (Except.ok tok) =>
      let wcalls := List.replicate
        (writeLoopCalls env.writeAttempts env.k8sStore bootTokenSecretName tok)
        (Call.secretWrite bootTokenSecretName tok)
      match runWriteLoop env.writeAttempts env.k8sStore bootTokenSecretName tok with
      | .running => (.stuck, env.k8sStore, pre ++ wcalls)
      | .done store => (.ok tok, store, pre ++ wcalls)

/-- Shallow embedding of `setServerPolicy` (servers.go:210-232): render the
agent rules (failures reported immediately), then upsert the `agent-token`
policy through the retry driver. -/
def setServerPolicy (env : Env) : Outcome ACLPolicy × List Call :=
  match env.agentRules with
  | Except.error e => (.err e, [])
  | Except.ok rules =>
    let pcalls := List.replicate (retryLoopCalls env.policyAttempts)
      (Call.policyUpsert "agent-token")
    match retryLoop env.policyAttempts with
    | .running => (.stuck, pcalls)
    | .done _ =>
      (.ok { Name := "agent-token", Description := "Agent Token Policy", Rules := rules },
       pcalls)

/-- The deterministic description at servers.go:162. -/
def serverTokenDescription (ip : String) : String := "Server Token for " ++ ip

/-- The token-reuse lookup at servers.go:166-173: the first token whose policy
list is exactly the agent policy and whose description matches gives its
SecretID; otherwise `tokenSecretID` keeps the zero value `""`. -/
def findServerTokenSecret (tokens : List TokenEntry) (policyName desc : String) : String :=
  match tokens.find? (fun t => t.Policies == [policyName] && t.Description == desc) with
  | some t => t.SecretID
  | none => ""

/-- Shallow embedding of one iteration of the per-server loop
(servers.go:148-205): build the per-server client, look the token up in the
pre-fetched list, create it through the retry driver only when the lookup gave
`""`, then always push it to that server through the retry driver. -/
def provisionServer (env : Env) (bootstrapToken policyName : String)
    (existingTokens : List TokenEntry) (host : String) : Outcome Unit × List Call :=
  let cfg := { env.baseConfig with
    address := serverHTTPAddr env host, token := bootstrapToken }
  match env.newClient cfg with
  | some e => (.err e, [Call.newClient cfg])
  | none =>
    let desc := serverTokenDescription host
    let found := findServerTokenSecret existingTokens policyName desc
    if found = "" then
      let attempts := env.tokenCreateAttempts host
      let createCalls := List.replicate (retryLoopCalls attempts)
        (Call.tokenCreate host desc [policyName])
      match retryLoop attempts with
      | .running => (.stuck, Call.newClient cfg :: createCalls)
      | .done secret =>
        let pushAttempts := env.agentTokenUpdateAttempts host
        let pushCalls := List.replicate (retryLoopCalls pushAttempts)
          (Call.agentTokenUpdate host secret)
        match retryLoop pushAttempts with
        | .running => (.stuck, Call.newClient cfg :: createCalls ++ pushCalls)
        | .done _ => (.ok (), Call.newClient cfg :: createCalls ++ pushCalls)
    else
      let pushAttempts := env.agentTokenUpdateAttempts host
      let pushCalls := List.replicate (retryLoopCalls pushAttempts)
        (Call.agentTokenUpdate host found)
      match retryLoop pushAttempts with
      | .running => (.stuck, Call.newClient cfg :: pushCalls)
      | .done _ => (.ok (), Call.newClient cfg :: pushCalls)

/-- The per-server loop of `setServerTokens` (servers.go:148-205): servers are
provisioned sequentially and any failure aborts the loop with that error. -/
def provisionServers (env : Env) (bootstrapToken policyName : String)
    (existingTokens : List TokenEntry) : List String → Outcome Unit × List Call
  | [] => (.ok (), [])
  | host :: rest =>
    match provisionServer env bootstrapToken policyName existingTokens host with
    | (.ok _, calls) =>
      match provisionServers env bootstrapToken policyName existingTokens rest with
      | (res, calls2) => (res, calls ++ calls2)
    | (.err e, calls) => (.err e, calls)
    | (.stuck, calls) => (.stuck, calls)

/-- Shallow embedding of `setServerTokens` (servers.go:127-208): build a client
for the first server, ensure the agent policy, fetch the existing token list
once, then run the per-server loop against that one list.  `none` models the
Go index panic on an empty address list. -/
def setServerTokens (env : Env) (serverAddresses : List String) (bootstrapToken : String) :
    Option (Outcome Unit × List Call) :=
  match serverAddresses.head? with
  | none => none
  | some first =>
    let cfg := { env.baseConfig with
      address := serverHTTPAddr env first, token := bootstrapToken }
    some (
      match env.newClient cfg with
      | some e => (.err e, [Call.newClient cfg])
      | none =>
        match setServerPolicy env with
        | (.err e, pcalls) => (.err e, Call.newClient cfg :: pcalls)
        | (.stuck, pcalls) => (.stuck, Call.newClient cfg :: pcalls)
        | (.ok agentPolicy, pcalls) =>
          match env.tokenListResult with
          | Except.error e => (.err e, Call.newClient cfg :: (pcalls ++ [Call.tokenList]))
          | Except.ok existingTokens =>
            match provisionServers env bootstrapToken agentPolicy.Name
                existingTokens serverAddresses with
            | (res, scalls) =>
              (res, Call.newClient cfg :: (pcalls ++ Call.tokenList :: scalls)))

/-- Shallow embedding of `bootstrapServers` (servers.go:21-46): index the first
server address unconditionally (`none` models the Go panic on an empty list),
bootstrap ACLs only when the stored token is empty, then optionally set the
per-server tokens, returning the effective bootstrap token. -/
def bootstrapServers (env : Env) (serverAddresses : List String)
    (bootstrapToken bootTokenSecretName : String) :
    Option (Outcome String × SecretStore × List Call) :=
  match serverAddresses.head? with
  | none => none
  | some addr0 =>
    let firstServerAddr := serverHTTPAddr env addr0
    let acls :=
      if bootstrapToken = "" then
        bootstrapACLs env firstServerAddr bootTokenSecretName
      else
        (.ok bootstrapToken, env.k8sStore, [])
    match acls with
    | (.err e, store, bcalls) => some (.err e, store, bcalls)
    | (.stuck, store, bcalls) => some (.stuck, store, bcalls)
    | (.ok tok, store, bcalls) =>
      if env.flagSetServerTokens then
        match setServerTokens env serverAddresses tok with
        | none => some (.stuck, store, bcalls)
        | some (.ok _, scalls) => some (.ok tok, store, bcalls ++ scalls)
        | some (.err e, scalls) => some (.err e, store, bcalls ++ scalls)
        | some (.stuck, scalls) => some (.stuck, store, bcalls ++ scalls)
      else
        some (.ok tok, store, bcalls)

/-- Recognizer for token-list fetch events. -/
def isTokenListCall : Call → Bool
  | .tokenList => true
  | _ => false

/-- Recognizer for the per-server-loop events (token creation and agent push). -/
def isPerServerCall : Call → Bool
  | .tokenCreate _ _ _ => true
  | .agentTokenUpdate _ _ => true
  | _ => false

/-- Recognizer for every call `setServerTokens` can issue (notably excluding
the bootstrap API call and the Kubernetes secret write). -/
def isProvisionCall : Call → Bool
  | .newClient _ => true
  | .policyUpsert _ => true
  | .tokenList => true
  | .tokenCreate _ _ _ => true
  | .agentTokenUpdate _ _ => true
  | _ => false

/-- A concrete base client configuration (default 5-second API timeout). -/
def sampleBaseConfig : APIClientConfig :=
  { address := "", token := "", httpClientTimeoutSeconds := 5 }

/-- A concrete environment in which every external call succeeds at its first
attempt: bootstrap yields the token `tok123`, the Kubernetes store is empty,
and per-server calls succeed. -/
def sampleEnv : Env := {
  baseConfig := sampleBaseConfig
  httpPort := 8500
  flagSetServerTokens := false
  k8sStore := []
  newClient := fun _ => none
  bootstrapAttempts := [Except.ok { SecretID := "tok123" }]
  writeAttempts := [false]
  agentRules := Except.ok "agent-rules"
  policyAttempts := [Except.ok ()]
  tokenListResult := Except.ok []
  tokenCreateAttempts := fun _ => [Except.ok "created-secret"]
  agentTokenUpdateAttempts := fun _ => [Except.ok ()] }

/-- Environment whose first bootstrap attempt fails with the 403 signal. -/
def c2WitEnv : Env :=
  { sampleEnv with
    bootstrapAttempts := [Except.error "Unexpected response code: 403 (Forbidden)"] }

/-- Environment whose first bootstrap attempt has its connection refused. -/
def c6WitEnv : Env :=
  { sampleEnv with
    bootstrapAttempts := [Except.error "dial tcp 10.0.0.1:8500: connection refused"] }

/-- Environment in which the target bootstrap secret name is already taken. -/
def c10WitEnv : Env :=
  { sampleEnv with k8sStore := [("boot-secret", "old-value")] }

/-- A pre-existing token entry matching the agent policy and the deterministic
description for 10.0.0.1, but carrying an empty SecretID. -/
def c4CexToken : TokenEntry :=
  { Description := "Server Token for 10.0.0.1", Policies := ["agent-token"], SecretID := "" }

/-- Environment whose pre-fetched token list holds `c4CexToken`. -/
def c4CexEnv : Env :=
  { sampleEnv with tokenListResult := Except.ok [c4CexToken] }

/-- The per-server client configuration built for 10.0.0.1 with token `root`. -/
def c4CexConfig : APIClientConfig :=
  { address := "10.0.0.1:8500", token := "root", httpClientTimeoutSeconds := 5 }

/-- The trace of `setServerTokens c4CexEnv ["10.0.0.1"] "root"`. -/
def c4CexCalls : List Call :=
  [Call.newClient c4CexConfig, Call.policyUpsert "agent-token", Call.tokenList,
   Call.newClient c4CexConfig,
   Call.tokenCreate "10.0.0.1" "Server Token for 10.0.0.1" ["agent-token"],
   Call.agentTokenUpdate "10.0.0.1" "created-secret"]

/-- A pre-existing matching token entry with a non-empty SecretID. -/
def c4WitToken : TokenEntry :=
  { Description := "Server Token for 10.0.0.1", Policies := ["agent-token"],
    SecretID := "reused-secret" }

/-- Environment whose pre-fetched token list holds `c4WitToken`. -/
def c4WitEnv : Env :=
  { sampleEnv with tokenListResult := Except.ok [c4WitToken] }

/-- The trace of `setServerTokens c4WitEnv ["10.0.0.1"] "root"`: no token
creation, one push with the reused secret. -/
def c4WitCalls : List Call :=
  [Call.newClient c4CexConfig, Call.policyUpsert "agent-token", Call.tokenList,
   Call.newClient c4CexConfig,
   Call.agentTokenUpdate "10.0.0.1" "reused-secret"]

/-- An error string satisfying the no-leader condition that also carries the
connection-refused signal. -/
def c5CexErr : String :=
  "Unexpected response code: 500 (The ACL system is currently in legacy mode.): dial tcp: connection refused"

/-- A plain no-leader error string. -/
def c5WitErr : String :=
  "Unexpected response code: 500 (The ACL system is currently in legacy mode.)"

/-- The trace of `setServerTokens sampleEnv ["10.0.0.1"] "root"`. -/
def c7WitCalls : List Call :=
  [Call.newClient c4CexConfig, Call.policyUpsert "agent-token", Call.tokenList,
   Call.newClient c4CexConfig,
   Call.tokenCreate "10.0.0.1" "Server Token for 10.0.0.1" ["agent-token"],
   Call.agentTokenUpdate "10.0.0.1" "created-secret"]

/-- The bootstrap client configuration used in the sample runs. -/
def c8WitConfig : APIClientConfig :=
  { address := "10.0.0.1:8500", token := "", httpClientTimeoutSeconds := 300 }

/-- The trace of `bootstrapServers sampleEnv ["10.0.0.1"] "" "boot-secret"`. -/
def c8WitCalls : List Call :=
  [Call.newClient c8WitConfig, Call.bootstrapCall, Call.secretWrite "boot-secret" "tok123"]

/-- Retryable attempts at the front of the bootstrap loop leave its result
unchanged: the driver keeps looping past them. -/
theorem runBootstrapLoop_retry_append (pre l : List (Except String BootstrapResp))
    (h : ∀ a ∈ pre, ∃ m, classifyBootstrapAttempt a = AttemptStep.retryWith m) :
    runBootstrapLoop (pre ++ l) = runBootstrapLoop l := by
  induction pre with
  | nil => rfl
  | cons a pre ih =>
    obtain ⟨m, hm⟩ := h a (List.mem_cons_self a pre)
    simp only [List.cons_append, runBootstrapLoop, hm]
    exact ih fun b hb => h b (List.mem_cons_of_mem a hb)

/-- Retryable attempts at the front of the bootstrap loop each cost one call. -/
theorem bootstrapLoopCalls_retry_append (pre l : List (Except String BootstrapResp))
    (h : ∀ a ∈ pre, ∃ m, classifyBootstrapAttempt a = AttemptStep.retryWith m) :
    bootstrapLoopCalls (pre ++ l) = pre.length + bootstrapLoopCalls l := by
  induction pre with
  | nil => simp
  | cons a pre ih =>
    obtain ⟨m, hm⟩ := h a (List.mem_cons_self a pre)
    simp only [List.cons_append, bootstrapLoopCalls, hm, List.append_eq]
    rw [ih fun b hb => h b (List.mem_cons_of_mem a hb)]
    simp only [List.length_cons]
    omega

/-- Unfolding `bootstrapACLs` when the bootstrap loop ends unrecoverably. -/
theorem bootstrapACLs_fatal (env : Env) (addr name msg : String)
    (hnc : env.newClient (bootstrapClientConfig env.baseConfig addr) = none)
    (hloop : runBootstrapLoop env.bootstrapAttempts = LoopResult.done (Except.error msg)) :
    bootstrapACLs env addr name =
      (.err msg, env.k8sStore,
       Call.newClient (bootstrapClientConfig env.baseConfig addr) ::
         List.replicate (bootstrapLoopCalls env.bootstrapAttempts) Call.bootstrapCall) := by
  simp only [bootstrapACLs, hnc, hloop]

/-- Unfolding `bootstrapACLs` when bootstrap succeeds and the secret write
completes. -/
theorem bootstrapACLs_ok (env : Env) (addr name t : String) (st : SecretStore)
    (hnc : env.newClient (bootstrapClientConfig env.baseConfig addr) = none)
    (hloop : runBootstrapLoop env.bootstrapAttempts = LoopResult.done (Except.ok t))
    (hwl : runWriteLoop env.writeAttempts env.k8sStore name t = LoopResult.done st) :
    bootstrapACLs env addr name =
      (.ok t, st,
       (Call.newClient (bootstrapClientConfig env.baseConfig addr) ::
         List.replicate (bootstrapLoopCalls env.bootstrapAttempts) Call.bootstrapCall) ++
       List.replicate (writeLoopCalls env.writeAttempts env.k8sStore name t)
         (Call.secretWrite name t)) := by
  simp only [bootstrapACLs, hnc, hloop, hwl]

/-- Unfolding `bootstrapACLs` when bootstrap succeeds but the secret write loop
is still retrying. -/
theorem bootstrapACLs_stuckWrite (env : Env) (addr name t : String)
    (hnc : env.newClient (bootstrapClientConfig env.baseConfig addr) = none)
    (hloop : runBootstrapLoop env.bootstrapAttempts = LoopResult.done (Except.ok t))
    (hwl : runWriteLoop env.writeAttempts env.k8sStore name t = LoopResult.running) :
    bootstrapACLs env addr name =
      (.stuck, env.k8sStore,
       (Call.newClient (bootstrapClientConfig env.baseConfig addr) ::
         List.replicate (bootstrapLoopCalls env.bootstrapAttempts) Call.bootstrapCall) ++
       List.replicate (writeLoopCalls env.writeAttempts env.k8sStore name t)
         (Call.secretWrite name t)) := by
  simp only [bootstrapACLs, hnc, hloop, hwl]

/-- Unfolding `bootstrapServers` on an empty stored token when `bootstrapACLs`
returns an error. -/
theorem bootstrapServers_cons_err (env : Env) (addr0 : String) (addrs : List String)
    (name e : String) (store : SecretStore) (bcalls : List Call)
    (hacl : bootstrapACLs env (serverHTTPAddr env addr0) name = (.err e, store, bcalls)) :
    bootstrapServers env (addr0 :: addrs) "" name = some (.err e, store, bcalls) := by
  simp [bootstrapServers, hacl]

/-- Unfolding `bootstrapServers` on an empty stored token when `bootstrapACLs`
is stuck in a retry loop. -/
theorem bootstrapServers_cons_stuck (env : Env) (addr0 : String) (addrs : List String)
    (name : String) (store : SecretStore) (bcalls : List Call)
    (hacl : bootstrapACLs env (serverHTTPAddr env addr0) name = (.stuck, store, bcalls)) :
    bootstrapServers env (addr0 :: addrs) "" name = some (.stuck, store, bcalls) := by
  simp [bootstrapServers, hacl]

/-- On a non-empty address list `setServerTokens` always yields a result. -/
theorem setServerTokens_cons_isSome (env : Env) (first : String) (rest : List String)
    (tok : String) : (setServerTokens env (first :: rest) tok).isSome = true := by
  simp [setServerTokens]

/-- C9: `bootstrapServers` indexes the first server address unconditionally,
before and independently of whether bootstrap is skipped; the run is undefined
(models the Go index panic) exactly when the address list is empty, and with a
non-empty list the indexing always succeeds. -/
theorem bootstrapServers_none_iff_empty (env : Env) (addrs : List String)
    (tok name : String) :
    bootstrapServers env addrs tok name = none ↔ addrs = [] := by
  cases addrs with
  | nil => simp [bootstrapServers]
  | cons a as =>
    simp only [bootstrapServers, List.head?]
    rcases h : (if tok = "" then bootstrapACLs env (serverHTTPAddr env a) name
        else (Outcome.ok tok, env.k8sStore, ([] : List Call))) with ⟨res, store, bcalls⟩
    cases res with
    | err e => simp
    | stuck => simp
    | ok t =>
      by_cases hf : env.flagSetServerTokens
      · simp only [hf, if_true]
        rcases hs : setServerTokens env (a :: as) t with _ | ⟨res2, scalls⟩
        · simp
        · cases res2 <;> simp
      · simp [hf]

/-- C2: with no previously-stored root credential, a bootstrap attempt failing
with the 403 already-bootstrapped signal (after any number of retryable
attempts) ends the whole run with the fatal root-credential-lost error; the
403 attempt is not retried (the trace holds exactly the client construction
and the consumed bootstrap attempts, whatever outcomes would have followed),
and no policy upsert, token creation, token push or secret write is issued. -/
theorem bootstrapServers_403_rootCredentialLost (env : Env) (addr0 : String)
    (addrs : List String) (name e : String)
    (pre rest : List (Except String BootstrapResp))
    (hnc : env.newClient (bootstrapClientConfig env.baseConfig (serverHTTPAddr env addr0)) = none)
    (hpre : ∀ a ∈ pre, ∃ m, classifyBootstrapAttempt a = AttemptStep.retryWith m)
    (hatt : env.bootstrapAttempts = pre ++ Except.error e :: rest)
    (h403 : strContains e "Unexpected response code: 403" = true) :
    bootstrapServers env (addr0 :: addrs) "" name =
      some (.err rootCredentialLostMsg, env.k8sStore,
        Call.newClient (bootstrapClientConfig env.baseConfig (serverHTTPAddr env addr0)) ::
          List.replicate (pre.length + 1) Call.bootstrapCall) := by
  have hcl : classifyBootstrapAttempt (Except.error e) =
      AttemptStep.stopUnrecoverable rootCredentialLostMsg := by
    simp [classifyBootstrapAttempt, h403]
  have hloop : runBootstrapLoop env.bootstrapAttempts =
      LoopResult.done (Except.error rootCredentialLostMsg) := by
    rw [hatt, runBootstrapLoop_retry_append pre _ hpre]
    simp [runBootstrapLoop, hcl]
  have hcalls : bootstrapLoopCalls env.bootstrapAttempts = pre.length + 1 := by
    rw [hatt, bootstrapLoopCalls_retry_append pre _ hpre]
    simp [bootstrapLoopCalls, hcl]
  have hacl := bootstrapACLs_fatal env (serverHTTPAddr env addr0) name
    rootCredentialLostMsg hnc hloop
  rw [hcalls] at hacl
  exact bootstrapServers_cons_err env addr0 addrs name rootCredentialLostMsg
    env.k8sStore _ hacl

/-- Witness for C2 at a concrete environment: the single 403-failing attempt
ends the run fatally with exactly one bootstrap call and no other events. -/
theorem bootstrapServers_403_rootCredentialLost_witness :
    (strContains "Unexpected response code: 403 (Forbidden)"
        "Unexpected response code: 403" = true) ∧
    bootstrapServers c2WitEnv ["10.0.0.1"] "" "boot-secret" =
      some (.err rootCredentialLostMsg, c2WitEnv.k8sStore,
        Call.newClient
            (bootstrapClientConfig c2WitEnv.baseConfig (serverHTTPAddr c2WitEnv "10.0.0.1")) ::
          List.replicate 1 Call.bootstrapCall) :=
  ⟨by decide,
   bootstrapServers_403_rootCredentialLost c2WitEnv "10.0.0.1" [] "boot-secret"
     "Unexpected response code: 403 (Forbidden)" [] [] rfl (by simp) rfl (by decide)⟩

/-- C5 counterexample: an error string satisfying the claim's no-leader
condition (contains the 500 code and the legacy-ACL-mode message) that also
contains the connection-refused signal is classified as terminal, not as the
retryable no-leader annotation, because the code checks the 403 and
connection-refused substrings first. -/
theorem noLeader_classification_counterexample :
    isNoLeaderErr c5CexErr = true ∧
    classifyBootstrapAttempt (Except.error c5CexErr) ≠
      AttemptStep.retryWith ("no leader elected: " ++ c5CexErr) ∧
    runBootstrapLoop [Except.error c5CexErr] =
      LoopResult.done (Except.error dnsRestartMsg) := by
  refine ⟨by decide, by decide, by rfl⟩

/-- C5 (amended): a bootstrap attempt whose error satisfies the no-leader
condition and does not also carry the 403 or connection-refused signals
(checked first by the code) is classified retryable with the no-leader
annotation; the loop simply continues past it and a subsequent successful
attempt yields that response's SecretID; a 403-carrying error, by contrast,
is terminal. -/
theorem noLeader_retryable_amended (e : String)
    (hnl : isNoLeaderErr e = true)
    (h403 : strContains e "Unexpected response code: 403" = false)
    (hcr : strContains e "connection refused" = false) :
    classifyBootstrapAttempt (Except.error e) =
      AttemptStep.retryWith ("no leader elected: " ++ e) ∧
    (∀ rest, runBootstrapLoop (Except.error e :: rest) = runBootstrapLoop rest) ∧
    (∀ resp rest, runBootstrapLoop (Except.error e :: Except.ok resp :: rest) =
      LoopResult.done (Except.ok resp.SecretID)) ∧
    (∀ e2, strContains e2 "Unexpected response code: 403" = true →
      classifyBootstrapAttempt (Except.error e2) =
        AttemptStep.stopUnrecoverable rootCredentialLostMsg) := by
  have hcl : classifyBootstrapAttempt (Except.error e) =
      AttemptStep.retryWith ("no leader elected: " ++ e) := by
    simp [classifyBootstrapAttempt, h403, hcr, hnl]
  refine ⟨hcl, ?_, ?_, ?_⟩
  · intro rest
    simp [runBootstrapLoop, hcl]
  · intro resp rest
    simp [runBootstrapLoop, hcl, classifyBootstrapAttempt, h403, hcr, hnl]
  · intro e2 h2
    simp [classifyBootstrapAttempt, h2]

/-- Witness for the amended C5 at a concrete plain no-leader error string:
it is classified as the retryable annotated error, a following successful
attempt yields its SecretID, and a concrete 403 string is terminal. -/
theorem noLeader_retryable_amended_witness :
    (isNoLeaderErr c5WitErr = true ∧
     strContains c5WitErr "Unexpected response code: 403" = false ∧
     strContains c5WitErr "connection refused" = false) ∧
    classifyBootstrapAttempt (Except.error c5WitErr) =
      AttemptStep.retryWith ("no leader elected: " ++ c5WitErr) ∧
    runBootstrapLoop [Except.error c5WitErr] = runBootstrapLoop [] ∧
    runBootstrapLoop [Except.error c5WitErr, Except.ok (BootstrapResp.mk "tok9")] =
      LoopResult.done (Except.ok (BootstrapResp.mk "tok9").SecretID) ∧
    classifyBootstrapAttempt (Except.error "Unexpected response code: 403 (Forbidden)") =
      AttemptStep.stopUnrecoverable rootCredentialLostMsg :=
  ⟨⟨by decide, by decide, by decide⟩,
   (noLeader_retryable_amended c5WitErr (by decide) (by decide) (by decide)).1,
   (noLeader_retryable_amended c5WitErr (by decide) (by decide) (by decide)).2.1 [],
   (noLeader_retryable_amended c5WitErr (by decide) (by decide) (by decide)).2.2.1
     (BootstrapResp.mk "tok9") [],
   (noLeader_retryable_amended c5WitErr (by decide) (by decide) (by decide)).2.2.2
     "Unexpected response code: 403 (Forbidden)" (by decide)⟩

/-- C6: a bootstrap attempt whose error carries the connection-refused signal
(after any number of retryable attempts) stops the retry loop at that attempt
and `bootstrapACLs` returns a terminal error to the caller: the trace holds
exactly the consumed attempts whatever would have followed, so the run ends
rather than looping; errors carrying neither terminal signal are retried
instead. -/
theorem bootstrapACLs_connectionRefused_terminal (env : Env) (addr name e : String)
    (pre rest : List (Except String BootstrapResp))
    (hnc : env.newClient (bootstrapClientConfig env.baseConfig addr) = none)
    (hpre : ∀ a ∈ pre, ∃ m, classifyBootstrapAttempt a = AttemptStep.retryWith m)
    (hatt : env.bootstrapAttempts = pre ++ Except.error e :: rest)
    (hcr : strContains e "connection refused" = true) :
    bootstrapACLs env addr name =
      (.err (if strContains e "Unexpected response code: 403" = true then
          rootCredentialLostMsg else dnsRestartMsg),
       env.k8sStore,
       Call.newClient (bootstrapClientConfig env.baseConfig addr) ::
         List.replicate (pre.length + 1) Call.bootstrapCall) ∧
    (∀ e2 rest2, strContains e2 "Unexpected response code: 403" = false →
      strContains e2 "connection refused" = false →
      runBootstrapLoop (Except.error e2 :: rest2) = runBootstrapLoop rest2) := by
  have hcl : classifyBootstrapAttempt (Except.error e) =
      AttemptStep.stopUnrecoverable
        (if strContains e "Unexpected response code: 403" = true then
          rootCredentialLostMsg else dnsRestartMsg) := by
    by_cases h4 : strContains e "Unexpected response code: 403" = true
    · simp [classifyBootstrapAttempt, h4]
    · simp only [eq_self_iff_true, if_neg h4]
      simp [classifyBootstrapAttempt, Bool.of_not_eq_true h4, hcr]
  have hloop : runBootstrapLoop env.bootstrapAttempts =
      LoopResult.done (Except.error
        (if strContains e "Unexpected response code: 403" = true then
          rootCredentialLostMsg else dnsRestartMsg)) := by
    rw [hatt, runBootstrapLoop_retry_append pre _ hpre]
    simp [runBootstrapLoop, hcl]
  have hcalls : bootstrapLoopCalls env.bootstrapAttempts = pre.length + 1 := by
    rw [hatt, bootstrapLoopCalls_retry_append pre _ hpre]
    simp [bootstrapLoopCalls, hcl]
  have hacl := bootstrapACLs_fatal env addr name _ hnc hloop
  rw [hcalls] at hacl
  refine ⟨hacl, ?_⟩
  intro e2 rest2 h4 hc2
  have : classifyBootstrapAttempt (Except.error e2) =
      AttemptStep.retryWith (if isNoLeaderErr e2 = true then
        "no leader elected: " ++ e2 else e2) := by
    by_cases hnl : isNoLeaderErr e2 = true
    · simp [classifyBootstrapAttempt, h4, hc2, hnl]
    · simp [classifyBootstrapAttempt, h4, hc2, Bool.of_not_eq_true hnl]
  simp [runBootstrapLoop, this]

/-- Witness for C6 at a concrete connection-refused error: the run returns
the terminal error after exactly one bootstrap call, while a concrete
transient (timeout) error would be retried. -/
theorem bootstrapACLs_connectionRefused_terminal_witness :
    (strContains "dial tcp 10.0.0.1:8500: connection refused" "connection refused" = true) ∧
    bootstrapACLs c6WitEnv (serverHTTPAddr c6WitEnv "10.0.0.1") "boot-secret" =
      (.err (if strContains "dial tcp 10.0.0.1:8500: connection refused"
            "Unexpected response code: 403" = true then
          rootCredentialLostMsg else dnsRestartMsg),
       c6WitEnv.k8sStore,
       Call.newClient
           (bootstrapClientConfig c6WitEnv.baseConfig (serverHTTPAddr c6WitEnv "10.0.0.1")) ::
         List.replicate 1 Call.bootstrapCall) ∧
    runBootstrapLoop [Except.error "dial tcp: i/o timeout"] = runBootstrapLoop [] :=
  ⟨by decide,
   (bootstrapACLs_connectionRefused_terminal c6WitEnv (serverHTTPAddr c6WitEnv "10.0.0.1")
     "boot-secret" "dial tcp 10.0.0.1:8500: connection refused" [] []
     rfl (by simp) rfl (by decide)).1,
   (bootstrapACLs_connectionRefused_terminal c6WitEnv (serverHTTPAddr c6WitEnv "10.0.0.1")
     "boot-secret" "dial tcp 10.0.0.1:8500: connection refused" [] []
     rfl (by simp) rfl (by decide)).2
     "dial tcp: i/o timeout" [] (by decide) (by decide)⟩

/-- A write loop over a store not containing the target name succeeds at its
first non-transient attempt, adding the secret under that name. -/
theorem runWriteLoop_success (attempts : List Bool) (store : SecretStore) (n v : String)
    (habsent : secretExists store n = false) (hmem : false ∈ attempts) :
    runWriteLoop attempts store n v = LoopResult.done ((n, v) :: store) := by
  induction attempts with
  | nil => cases hmem
  | cons b rest ih =>
    cases b with
    | false => simp [runWriteLoop, createSecret, habsent]
    | true =>
      have hrest : false ∈ rest := by
        rcases List.mem_cons.mp hmem with h | h
        · cases h
        · exact h
      simp [runWriteLoop, ih hrest]

/-- A write loop over a store already containing the target name retries
forever: every attempt fails with the already-exists error. -/
theorem runWriteLoop_alreadyExists (attempts : List Bool) (store : SecretStore)
    (n v : String) (h : secretExists store n = true) :
    runWriteLoop attempts store n v = LoopResult.running := by
  induction attempts with
  | nil => rfl
  | cons b rest ih =>
    cases b with
    | false => simp [runWriteLoop, createSecret, h, ih]
    | true => simp [runWriteLoop, ih]

/-- A non-empty attempt list makes the write loop issue at least one call. -/
theorem writeLoopCalls_pos (attempts : List Bool) (store : SecretStore) (n v : String)
    (h : attempts ≠ []) : 0 < writeLoopCalls attempts store n v := by
  cases attempts with
  | nil => cases h rfl
  | cons b rest =>
    cases b with
    | true => simp [writeLoopCalls]
    | false =>
      rcases hc : createSecret store n v with e | s <;> simp [writeLoopCalls, hc]

/-- Looking up a freshly added secret returns its value. -/
theorem lookupSecret_cons_self (store : SecretStore) (n v : String) :
    lookupSecret ((n, v) :: store) n = some v := by
  unfold lookupSecret
  rw [List.find?_cons_of_pos _ (by simp)]

/-- On a non-empty address list `bootstrapServers` always yields a result. -/
theorem bootstrapServers_cons_ne_none (env : Env) (addr0 : String) (addrs : List String)
    (tok name : String) : bootstrapServers env (addr0 :: addrs) tok name ≠ none := by
  simp only [bootstrapServers, List.head?]
  rcases h : (if tok = "" then bootstrapACLs env (serverHTTPAddr env addr0) name
      else (Outcome.ok tok, env.k8sStore, ([] : List Call))) with ⟨res, store, bcalls⟩
  cases res with
  | err e => simp
  | stuck => simp
  | ok t =>
    by_cases hf : env.flagSetServerTokens
    · simp only [hf, if_true]
      rcases hs : setServerTokens env (addr0 :: addrs) t with _ | ⟨res2, scalls⟩
      · simp
      · cases res2 <;> simp
    · simp [hf]

/-- Unfolding `bootstrapServers` on an empty stored token when `bootstrapACLs`
succeeds. -/
theorem bootstrapServers_cons_ok (env : Env) (addr0 : String) (addrs : List String)
    (name t : String) (st : SecretStore) (bcalls : List Call)
    (hacl : bootstrapACLs env (serverHTTPAddr env addr0) name = (.ok t, st, bcalls)) :
    bootstrapServers env (addr0 :: addrs) "" name =
      (if env.flagSetServerTokens then
        match setServerTokens env (addr0 :: addrs) t with
        | none => some (.stuck, st, bcalls)
        | some (.ok _, scalls) => some (.ok t, st, bcalls ++ scalls)
        | some (.err e, scalls) => some (.err e, st, bcalls ++ scalls)
        | some (.stuck, scalls) => some (.stuck, st, bcalls ++ scalls)
      else some (.ok t, st, bcalls)) := by
  simp [bootstrapServers, hacl]

/-- Whatever the provisioning phase does, a run with an empty stored token
whose `bootstrapACLs` phase succeeded with token `t` and store `st` keeps that
store, extends the bootstrap trace, and can only return `t`. -/
theorem bootstrapServers_components (env : Env) (addr0 : String) (addrs : List String)
    (name t : String) (st : SecretStore) (bcalls : List Call)
    (hacl : bootstrapACLs env (serverHTTPAddr env addr0) name = (.ok t, st, bcalls)) :
    ∀ res store calls,
      bootstrapServers env (addr0 :: addrs) "" name = some (res, store, calls) →
      store = st ∧ (∃ ext, calls = bcalls ++ ext) ∧
      ∀ r, res = Outcome.ok r → r = t := by
  intro res store calls hrun
  rw [bootstrapServers_cons_ok env addr0 addrs name t st bcalls hacl] at hrun
  by_cases hf : env.flagSetServerTokens
  · rw [if_pos hf] at hrun
    rcases hs : setServerTokens env (addr0 :: addrs) t with _ | ⟨res2, scalls⟩ <;>
      rw [hs] at hrun
    · simp only [Option.some.injEq, Prod.mk.injEq] at hrun
      obtain ⟨h1, h2, h3⟩ := hrun
      refine ⟨h2.symm, ⟨[], by simp [← h3]⟩, ?_⟩
      intro r hr
      rw [← h1] at hr
      cases hr
    · cases res2 with
      | ok u =>
        simp only [Option.some.injEq, Prod.mk.injEq] at hrun
        obtain ⟨h1, h2, h3⟩ := hrun
        refine ⟨h2.symm, ⟨scalls, h3.symm⟩, ?_⟩
        intro r hr
        rw [← h1] at hr
        injection hr with h4
        exact h4.symm
      | err e =>
        simp only [Option.some.injEq, Prod.mk.injEq] at hrun
        obtain ⟨h1, h2, h3⟩ := hrun
        refine ⟨h2.symm, ⟨scalls, h3.symm⟩, ?_⟩
        intro r hr
        rw [← h1] at hr
        cases hr
      | stuck =>
        simp only [Option.some.injEq, Prod.mk.injEq] at hrun
        obtain ⟨h1, h2, h3⟩ := hrun
        refine ⟨h2.symm, ⟨scalls, h3.symm⟩, ?_⟩
        intro r hr
        rw [← h1] at hr
        cases hr
  · rw [if_neg hf] at hrun
    simp only [Option.some.injEq, Prod.mk.injEq] at hrun
    obtain ⟨h1, h2, h3⟩ := hrun
    refine ⟨h2.symm, ⟨[], by simp [← h3]⟩, ?_⟩
    intro r hr
    rw [← h1] at hr
    injection hr with h4
    exact h4.symm

/-- C1: with an empty previously-stored bootstrap token, once the bootstrap
loop reaches a successful response (after any retryable attempts), the run
writes exactly the response's SecretID to the Kubernetes secret with the given
name — that write itself retried past transient failures until it succeeds —
and whenever `bootstrapServers` returns a credential, it is that SecretID. -/
theorem bootstrapServers_persists_bootstrap_token (env : Env) (addr0 : String)
    (addrs : List String) (name : String) (resp : BootstrapResp)
    (pre rest : List (Except String BootstrapResp))
    (hnc : env.newClient (bootstrapClientConfig env.baseConfig (serverHTTPAddr env addr0)) = none)
    (hpre : ∀ a ∈ pre, ∃ m, classifyBootstrapAttempt a = AttemptStep.retryWith m)
    (hatt : env.bootstrapAttempts = pre ++ Except.ok resp :: rest)
    (habsent : secretExists env.k8sStore name = false)
    (hwrite : false ∈ env.writeAttempts) :
    (bootstrapServers env (addr0 :: addrs) "" name).isSome = true ∧
    ∀ res store calls,
      bootstrapServers env (addr0 :: addrs) "" name = some (res, store, calls) →
      lookupSecret store name = some resp.SecretID ∧
      Call.secretWrite name resp.SecretID ∈ calls ∧
      ∀ r, res = Outcome.ok r → r = resp.SecretID := by
  have hloop : runBootstrapLoop env.bootstrapAttempts =
      LoopResult.done (Except.ok resp.SecretID) := by
    rw [hatt, runBootstrapLoop_retry_append pre _ hpre]
    simp [runBootstrapLoop, classifyBootstrapAttempt]
  have hwl := runWriteLoop_success env.writeAttempts env.k8sStore name resp.SecretID
    habsent hwrite
  have hacl := bootstrapACLs_ok env (serverHTTPAddr env addr0) name resp.SecretID _
    hnc hloop hwl
  have hne : env.writeAttempts ≠ [] := by
    intro h
    rw [h] at hwrite
    cases hwrite
  have hpos := writeLoopCalls_pos env.writeAttempts env.k8sStore name resp.SecretID hne
  have hmem : Call.secretWrite name resp.SecretID ∈
      (Call.newClient (bootstrapClientConfig env.baseConfig (serverHTTPAddr env addr0)) ::
        List.replicate (bootstrapLoopCalls env.bootstrapAttempts) Call.bootstrapCall) ++
      List.replicate (writeLoopCalls env.writeAttempts env.k8sStore name resp.SecretID)
        (Call.secretWrite name resp.SecretID) := by
    apply List.mem_append_right
    rw [List.mem_replicate]
    exact ⟨by omega, rfl⟩
  constructor
  · rcases ho : bootstrapServers env (addr0 :: addrs) "" name with _ | p
    · exact absurd ho (bootstrapServers_cons_ne_none env addr0 addrs "" name)
    · rfl
  · intro res store calls hrun
    obtain ⟨hst, ⟨ext, hcalls⟩, hres⟩ :=
      bootstrapServers_components env addr0 addrs name resp.SecretID _ _ hacl
        res store calls hrun
    refine ⟨?_, ?_, hres⟩
    · rw [hst]
      exact lookupSecret_cons_self env.k8sStore name resp.SecretID
    · rw [hcalls]
      exact List.mem_append_left _ hmem

/-- Witness for C1 at a concrete environment: bootstrap succeeds first try
with SecretID `tok123`, the secret write succeeds at its one real attempt, the
returned credential is `tok123` and the store holds it afterward. -/
theorem bootstrapServers_persists_bootstrap_token_witness :
    (secretExists sampleEnv.k8sStore "boot-secret" = false ∧
     false ∈ sampleEnv.writeAttempts ∧
     bootstrapServers sampleEnv ["10.0.0.1"] "" "boot-secret" =
       some (Outcome.ok "tok123", [("boot-secret", "tok123")], c8WitCalls)) ∧
    lookupSecret [("boot-secret", "tok123")] "boot-secret" = some "tok123" ∧
    Call.secretWrite "boot-secret" "tok123" ∈ c8WitCalls :=
  ⟨⟨rfl, by decide, by rfl⟩,
   ((bootstrapServers_persists_bootstrap_token sampleEnv "10.0.0.1" [] "boot-secret"
       (BootstrapResp.mk "tok123") [] [] rfl (by simp) rfl rfl (by decide)).2
     (Outcome.ok "tok123") [("boot-secret", "tok123")] c8WitCalls (by rfl)).1,
   ((bootstrapServers_persists_bootstrap_token sampleEnv "10.0.0.1" [] "boot-secret"
       (BootstrapResp.mk "tok123") [] [] rfl (by simp) rfl rfl (by decide)).2
     (Outcome.ok "tok123") [("boot-secret", "tok123")] c8WitCalls (by rfl)).2.1⟩

/-- The trace of `bootstrapACLs` always begins with the construction of the
long-timeout client aimed at the given address. -/
theorem bootstrapACLs_calls_head (env : Env) (addr name : String) :
    (bootstrapACLs env addr name).2.2.head? =
      some (Call.newClient (bootstrapClientConfig env.baseConfig addr)) := by
  simp only [bootstrapACLs]
  rcases h : env.newClient (bootstrapClientConfig env.baseConfig addr) with _ | e
  · rcases hl : runBootstrapLoop env.bootstrapAttempts with r | _
    · rcases r with m | t
      · simp [h, hl]
      · rcases hw : runWriteLoop env.writeAttempts env.k8sStore name t with st | _
        · simp [h, hl, hw]
        · simp [h, hl, hw]
    · simp [h, hl]
  · simp [h]

/-- C8: with an empty stored credential, the bootstrap phase is directed at
the first address of the server list — the client configuration carries that
address and an HTTP timeout of 5 minutes (300 seconds) instead of the default
per-call timeout — and every run's trace starts with that client's
construction. -/
theorem bootstrapServers_firstAddr_longTimeout (env : Env) (addr0 : String)
    (addrs : List String) (name : String) :
    (bootstrapClientConfig env.baseConfig (serverHTTPAddr env addr0)).address =
      serverHTTPAddr env addr0 ∧
    (bootstrapClientConfig env.baseConfig (serverHTTPAddr env addr0)).httpClientTimeoutSeconds =
      5 * 60 ∧
    ∀ res store calls,
      bootstrapServers env (addr0 :: addrs) "" name = some (res, store, calls) →
      calls.head? = some (Call.newClient
        (bootstrapClientConfig env.baseConfig (serverHTTPAddr env addr0))) := by
  refine ⟨rfl, rfl, ?_⟩
  intro res store calls hrun
  rcases hacl : bootstrapACLs env (serverHTTPAddr env addr0) name with ⟨res0, st, bcalls⟩
  have hhead : bcalls.head? =
      some (Call.newClient (bootstrapClientConfig env.baseConfig (serverHTTPAddr env addr0))) := by
    have := bootstrapACLs_calls_head env (serverHTTPAddr env addr0) name
    rw [hacl] at this
    exact this
  cases res0 with
  | err e =>
    rw [bootstrapServers_cons_err env addr0 addrs name e st bcalls hacl] at hrun
    simp only [Option.some.injEq, Prod.mk.injEq] at hrun
    rw [← hrun.2.2]
    exact hhead
  | stuck =>
    rw [bootstrapServers_cons_stuck env addr0 addrs name st bcalls hacl] at hrun
    simp only [Option.some.injEq, Prod.mk.injEq] at hrun
    rw [← hrun.2.2]
    exact hhead
  | ok t =>
    obtain ⟨hst, ⟨ext, hcalls⟩, hres⟩ :=
      bootstrapServers_components env addr0 addrs name t st bcalls hacl res store calls hrun
    rcases bcalls with _ | ⟨c, tl⟩
    · cases hhead
    · rw [hcalls]
      injection hhead with h1
      rw [← h1]
      rfl

/-- Witness for C8 at a concrete run: the trace starts with the long-timeout
client aimed at the first (and only) server address. -/
theorem bootstrapServers_firstAddr_longTimeout_witness :
    (bootstrapServers sampleEnv ["10.0.0.1"] "" "boot-secret" =
       some (Outcome.ok "tok123", [("boot-secret", "tok123")], c8WitCalls)) ∧
    (bootstrapClientConfig sampleEnv.baseConfig (serverHTTPAddr sampleEnv "10.0.0.1")).address =
      serverHTTPAddr sampleEnv "10.0.0.1" ∧
    (bootstrapClientConfig sampleEnv.baseConfig
        (serverHTTPAddr sampleEnv "10.0.0.1")).httpClientTimeoutSeconds = 5 * 60 ∧
    c8WitCalls.head? = some (Call.newClient
      (bootstrapClientConfig sampleEnv.baseConfig (serverHTTPAddr sampleEnv "10.0.0.1"))) :=
  ⟨by rfl,
   (bootstrapServers_firstAddr_longTimeout sampleEnv "10.0.0.1" [] "boot-secret").1,
   (bootstrapServers_firstAddr_longTimeout sampleEnv "10.0.0.1" [] "boot-secret").2.1,
   (bootstrapServers_firstAddr_longTimeout sampleEnv "10.0.0.1" [] "boot-secret").2.2
     (Outcome.ok "tok123") [("boot-secret", "tok123")] c8WitCalls (by rfl)⟩

/-- C10: the bootstrap-token persistence is a Kubernetes secret create, never
an update: if a secret with the target name already exists, the create fails
with the already-exists error, the indefinitely retried write never completes,
and the whole run never returns (it is stuck in the write loop with the store
unchanged, the trace showing one write attempt per supplied outcome). -/
theorem bootstrapSecret_create_never_update (env : Env) (addr0 : String)
    (addrs : List String) (name t : String)
    (hnc : env.newClient (bootstrapClientConfig env.baseConfig (serverHTTPAddr env addr0)) = none)
    (hexists : secretExists env.k8sStore name = true)
    (hloop : runBootstrapLoop env.bootstrapAttempts = LoopResult.done (Except.ok t)) :
    createSecret env.k8sStore name t =
      Except.error ("secrets \x22" ++ name ++ "\x22 already exists") ∧
    bootstrapServers env (addr0 :: addrs) "" name =
      some (.stuck, env.k8sStore,
        (Call.newClient (bootstrapClientConfig env.baseConfig (serverHTTPAddr env addr0)) ::
          List.replicate (bootstrapLoopCalls env.bootstrapAttempts) Call.bootstrapCall) ++
        List.replicate (writeLoopCalls env.writeAttempts env.k8sStore name t)
          (Call.secretWrite name t)) := by
  constructor
  · simp [createSecret, hexists]
  · have hwl := runWriteLoop_alreadyExists env.writeAttempts env.k8sStore name t hexists
    have hacl := bootstrapACLs_stuckWrite env (serverHTTPAddr env addr0) name t hnc hloop hwl
    exact bootstrapServers_cons_stuck env addr0 addrs name env.k8sStore _ hacl

/-- Witness for C10 at a concrete environment whose store already holds a
secret named `boot-secret`. -/
theorem bootstrapSecret_create_never_update_witness :
    (secretExists c10WitEnv.k8sStore "boot-secret" = true) ∧
    (createSecret c10WitEnv.k8sStore "boot-secret" "tok123" =
      Except.error ("secrets \x22boot-secret\x22 already exists") ∧
    bootstrapServers c10WitEnv ["10.0.0.1"] "" "boot-secret" =
      some (.stuck, c10WitEnv.k8sStore,
        (Call.newClient
            (bootstrapClientConfig c10WitEnv.baseConfig (serverHTTPAddr c10WitEnv "10.0.0.1")) ::
          List.replicate (bootstrapLoopCalls c10WitEnv.bootstrapAttempts) Call.bootstrapCall) ++
        List.replicate
          (writeLoopCalls c10WitEnv.writeAttempts c10WitEnv.k8sStore "boot-secret" "tok123")
          (Call.secretWrite "boot-secret" "tok123"))) :=
  ⟨by decide,
   bootstrapSecret_create_never_update c10WitEnv "10.0.0.1" [] "boot-secret" "tok123"
     rfl (by decide) (by rfl)⟩

/-- Every call in one per-server iteration's trace is a client construction,
the token creation for that host (possible only when the pre-fetched lookup
found nothing), or an agent-token push for that host. -/
theorem provisionServer_mem_shape (env : Env) (tok pol : String)
    (toks : List TokenEntry) (host : String) (c : Call)
    (hc : c ∈ (provisionServer env tok pol toks host).2) :
    (∃ cfg, c = Call.newClient cfg) ∨
    (c = Call.tokenCreate host (serverTokenDescription host) [pol] ∧
      findServerTokenSecret toks pol (serverTokenDescription host) = "") ∨
    (∃ s, c = Call.agentTokenUpdate host s) := by
  simp only [provisionServer] at hc
  split at hc
  · rcases List.mem_cons.mp hc with rfl | hc2
    · exact Or.inl ⟨_, rfl⟩
    · cases hc2
  · rename_i hnone
    split at hc
    · rename_i hf
      split at hc
      · rcases List.mem_cons.mp hc with rfl | hc2
        · exact Or.inl ⟨_, rfl⟩
        · have := (List.mem_replicate.mp hc2).2
          subst this
          exact Or.inr (Or.inl ⟨rfl, hf⟩)
      · split at hc
        all_goals
          rcases List.mem_cons.mp hc with rfl | hc2
          · exact Or.inl ⟨_, rfl⟩
          · rcases List.mem_append.mp hc2 with h3 | h3
            · have := (List.mem_replicate.mp h3).2
              subst this
              exact Or.inr (Or.inl ⟨rfl, hf⟩)
            · have := (List.mem_replicate.mp h3).2
              subst this
              exact Or.inr (Or.inr ⟨_, rfl⟩)
    · split at hc
      all_goals
        rcases List.mem_cons.mp hc with rfl | hc2
        · exact Or.inl ⟨_, rfl⟩
        · have := (List.mem_replicate.mp hc2).2
          subst this
          exact Or.inr (Or.inr ⟨_, rfl⟩)

/-- Every call in the per-server loop's trace belongs to the iteration of some
address of the list. -/
theorem provisionServers_mem (env : Env) (tok pol : String) (toks : List TokenEntry)
    (addrs : List String) (c : Call)
    (hc : c ∈ (provisionServers env tok pol toks addrs).2) :
    ∃ h, h ∈ addrs ∧ c ∈ (provisionServer env tok pol toks h).2 := by
  induction addrs with
  | nil => simp [provisionServers] at hc
  | cons a rest ih =>
    simp only [provisionServers] at hc
    rcases hp : provisionServer env tok pol toks a with ⟨r, calls⟩
    rw [hp] at hc
    cases r with
    | ok u =>
      rcases hq : provisionServers env tok pol toks rest with ⟨r2, calls2⟩
      rw [hq] at hc
      rcases List.mem_append.mp hc with h1 | h2
      · exact ⟨a, List.mem_cons_self a rest, by rw [hp]; exact h1⟩
      · obtain ⟨h, hmem, hcc⟩ := ih (by rw [hq]; exact h2)
        exact ⟨h, List.mem_cons_of_mem a hmem, hcc⟩
    | err e => exact ⟨a, List.mem_cons_self a rest, by rw [hp]; exact hc⟩
    | stuck => exact ⟨a, List.mem_cons_self a rest, by rw [hp]; exact hc⟩

/-- The calls of `setServerPolicy` are policy upserts of the agent policy. -/
theorem setServerPolicy_calls (env : Env) (r : Outcome ACLPolicy) (pcalls : List Call)
    (h : setServerPolicy env = (r, pcalls)) :
    ∀ c ∈ pcalls, c = Call.policyUpsert "agent-token" := by
  intro c hc
  unfold setServerPolicy at h
  rcases hrules : env.agentRules with e | rules <;> rw [hrules] at h
  · injection h with h1 h2
    rw [← h2] at hc
    cases hc
  · rcases hl : retryLoop env.policyAttempts with a | _ <;> rw [hl] at h <;>
      injection h with h1 h2 <;> rw [← h2] at hc <;>
      exact (List.mem_replicate.mp hc).2

/-- Unfolding `setServerTokens` when the loop-head client construction fails. -/
theorem setServerTokens_eq_clientErr (env : Env) (first : String) (rest : List String)
    (tok e : String)
    (hnc : env.newClient { env.baseConfig with
      address := serverHTTPAddr env first, token := tok } = some e) :
    setServerTokens env (first :: rest) tok =
      some (.err e, [Call.newClient { env.baseConfig with
        address := serverHTTPAddr env first, token := tok }]) := by
  simp only [setServerTokens, List.head?, hnc]

/-- Unfolding `setServerTokens` when the policy phase fails. -/
theorem setServerTokens_eq_polErr (env : Env) (first : String) (rest : List String)
    (tok e : String) (pcalls : List Call)
    (hnc : env.newClient { env.baseConfig with
      address := serverHTTPAddr env first, token := tok } = none)
    (hpol : setServerPolicy env = (.err e, pcalls)) :
    setServerTokens env (first :: rest) tok =
      some (.err e, Call.newClient { env.baseConfig with
        address := serverHTTPAddr env first, token := tok } :: pcalls) := by
  simp only [setServerTokens, List.head?, hnc, hpol]

/-- Unfolding `setServerTokens` when the policy retry loop is still running. -/
theorem setServerTokens_eq_polStuck (env : Env) (first : String) (rest : List String)
    (tok : String) (pcalls : List Call)
    (hnc : env.newClient { env.baseConfig with
      address := serverHTTPAddr env first, token := tok } = none)
    (hpol : setServerPolicy env = (.stuck, pcalls)) :
    setServerTokens env (first :: rest) tok =
      some (.stuck, Call.newClient { env.baseConfig with
        address := serverHTTPAddr env first, token := tok } :: pcalls) := by
  simp only [setServerTokens, List.head?, hnc, hpol]

/-- Unfolding `setServerTokens` when the token-list fetch fails. -/
theorem setServerTokens_eq_tokErr (env : Env) (first : String) (rest : List String)
    (tok : String) (p : ACLPolicy) (pcalls : List Call) (e2 : String)
    (hnc : env.newClient { env.baseConfig with
      address := serverHTTPAddr env first, token := tok } = none)
    (hpol : setServerPolicy env = (.ok p, pcalls))
    (htoks : env.tokenListResult = Except.error e2) :
    setServerTokens env (first :: rest) tok =
      some (.err e2, Call.newClient { env.baseConfig with
        address := serverHTTPAddr env first, token := tok } :: (pcalls ++ [Call.tokenList])) := by
  simp only [setServerTokens, List.head?, hnc, hpol, htoks]

/-- Unfolding `setServerTokens` when the loop-head client, the policy phase
and the token-list fetch all succeed: the result is the per-server loop's,
after the client construction, the policy calls and the one list fetch. -/
theorem setServerTokens_eq_ok (env : Env) (first : String) (rest : List String)
    (tok : String) (p : ACLPolicy) (pcalls : List Call) (toks : List TokenEntry)
    (hnc : env.newClient { env.baseConfig with
      address := serverHTTPAddr env first, token := tok } = none)
    (hpol : setServerPolicy env = (.ok p, pcalls))
    (htoks : env.tokenListResult = Except.ok toks) :
    setServerTokens env (first :: rest) tok =
      some ((provisionServers env tok p.Name toks (first :: rest)).1,
        Call.newClient { env.baseConfig with
            address := serverHTTPAddr env first, token := tok } ::
          (pcalls ++ Call.tokenList ::
            (provisionServers env tok p.Name toks (first :: rest)).2)) := by
  rcases hps : provisionServers env tok p.Name toks (first :: rest) with ⟨r2, scalls⟩
  simp only [setServerTokens, List.head?, hnc, hpol, htoks, hps]

/-- Every call in a `setServerTokens` trace is one of the provisioning calls:
a client construction, the policy upsert, the token-list fetch, a token
creation or an agent-token push — never a bootstrap call or a secret write. -/
theorem setServerTokens_calls_provision (env : Env) (addrs : List String) (tok : String)
    (res : Outcome Unit) (calls : List Call)
    (hrun : setServerTokens env addrs tok = some (res, calls)) :
    ∀ c ∈ calls, isProvisionCall c = true := by
  intro c hc
  cases addrs with
  | nil => cases hrun
  | cons first rest =>
    rcases hnc : env.newClient { env.baseConfig with
        address := serverHTTPAddr env first, token := tok } with _ | e
    · rcases hpol : setServerPolicy env with ⟨pr, pcalls⟩
      have hpc := setServerPolicy_calls env pr pcalls hpol
      cases pr with
      | ok p =>
        rcases htoks : env.tokenListResult with e2 | toks
        · rw [setServerTokens_eq_tokErr env first rest tok p pcalls e2 hnc hpol htoks] at hrun
          injection hrun with h1
          injection h1 with h1 h2
          rw [← h2] at hc
          rcases List.mem_cons.mp hc with rfl | hc2
          · rfl
          · rcases List.mem_append.mp hc2 with h3 | h3
            · rw [hpc c h3]
              rfl
            · rcases List.mem_cons.mp h3 with rfl | h4
              · rfl
              · cases h4
        · rw [setServerTokens_eq_ok env first rest tok p pcalls toks hnc hpol htoks] at hrun
          injection hrun with h1
          injection h1 with h1 h2
          rw [← h2] at hc
          rcases List.mem_cons.mp hc with rfl | hc2
          · rfl
          · rcases List.mem_append.mp hc2 with h3 | h3
            · rw [hpc c h3]
              rfl
            · rcases List.mem_cons.mp h3 with rfl | h4
              · rfl
              · obtain ⟨h, _, hcc⟩ := provisionServers_mem env tok p.Name toks
                  (first :: rest) c h4
                rcases provisionServer_mem_shape env tok p.Name toks h c hcc with
                  ⟨cfg, rfl⟩ | ⟨rfl, _⟩ | ⟨s, rfl⟩ <;> rfl
      | err e2 =>
        rw [setServerTokens_eq_polErr env first rest tok e2 pcalls hnc hpol] at hrun
        injection hrun with h1
        injection h1 with h1 h2
        rw [← h2] at hc
        rcases List.mem_cons.mp hc with rfl | hc2
        · rfl
        · rw [hpc c hc2]
          rfl
      | stuck =>
        rw [setServerTokens_eq_polStuck env first rest tok pcalls hnc hpol] at hrun
        injection hrun with h1
        injection h1 with h1 h2
        rw [← h2] at hc
        rcases List.mem_cons.mp hc with rfl | hc2
        · rfl
        · rw [hpc c hc2]
          rfl
    · rw [setServerTokens_eq_clientErr env first rest tok e hnc] at hrun
      injection hrun with h1
      injection h1 with h1 h2
      rw [← h2] at hc
      rcases List.mem_cons.mp hc with rfl | hc2
      · rfl
      · cases hc2

/-- Unfolding `bootstrapServers` on a non-empty stored token: bootstrap is
skipped and only the provisioning phase can contribute calls. -/
theorem bootstrapServers_cons_skip (env : Env) (addr0 : String) (addrs : List String)
    (tok name : String) (hne : tok ≠ "") :
    bootstrapServers env (addr0 :: addrs) tok name =
      (if env.flagSetServerTokens then
        match setServerTokens env (addr0 :: addrs) tok with
        | none => some (.stuck, env.k8sStore, [])
        | some (.ok _, scalls) => some (.ok tok, env.k8sStore, scalls)
        | some (.err e, scalls) => some (.err e, env.k8sStore, scalls)
        | some (.stuck, scalls) => some (.stuck, env.k8sStore, scalls)
      else some (.ok tok, env.k8sStore, [])) := by
  simp [bootstrapServers, hne]

/-- C3: with a non-empty previously-stored bootstrap token, no bootstrap API
call and no secret write is ever issued (`bootstrapACLs` is never invoked),
the Kubernetes store is untouched, and any credential the run returns is the
stored token unchanged. -/
theorem bootstrapServers_skip_returns_stored (env : Env) (addrs : List String)
    (tok name : String) (hne : tok ≠ "") :
    ∀ res store calls,
      bootstrapServers env addrs tok name = some (res, store, calls) →
      store = env.k8sStore ∧
      Call.bootstrapCall ∉ calls ∧
      (∀ n v, Call.secretWrite n v ∉ calls) ∧
      ∀ r, res = Outcome.ok r → r = tok := by
  intro res store calls hrun
  cases addrs with
  | nil => cases hrun
  | cons a as =>
    rw [bootstrapServers_cons_skip env a as tok name hne] at hrun
    by_cases hf : env.flagSetServerTokens
    · rw [if_pos hf] at hrun
      rcases hs : setServerTokens env (a :: as) tok with _ | ⟨res2, scalls⟩ <;>
        rw [hs] at hrun
      · simp only [Option.some.injEq, Prod.mk.injEq] at hrun
        obtain ⟨h1, h2, h3⟩ := hrun
        refine ⟨h2.symm, by rw [← h3]; exact List.not_mem_nil _,
          fun n v => by rw [← h3]; exact List.not_mem_nil _, ?_⟩
        intro r hr
        rw [← h1] at hr
        cases hr
      · have hprov := setServerTokens_calls_provision env (a :: as) tok res2 scalls hs
        have hnb : Call.bootstrapCall ∉ scalls := by
          intro hmem
          have := hprov Call.bootstrapCall hmem
          exact Bool.noConfusion this
        have hnw : ∀ n v, Call.secretWrite n v ∉ scalls := by
          intro n v hmem
          have := hprov (Call.secretWrite n v) hmem
          exact Bool.noConfusion this
        cases res2 with
        | ok u =>
          simp only [Option.some.injEq, Prod.mk.injEq] at hrun
          obtain ⟨h1, h2, h3⟩ := hrun
          refine ⟨h2.symm, by rw [← h3]; exact hnb, fun n v => by rw [← h3]; exact hnw n v, ?_⟩
          intro r hr
          rw [← h1] at hr
          injection hr with h4
          exact h4.symm
        | err e =>
          simp only [Option.some.injEq, Prod.mk.injEq] at hrun
          obtain ⟨h1, h2, h3⟩ := hrun
          refine ⟨h2.symm, by rw [← h3]; exact hnb, fun n v => by rw [← h3]; exact hnw n v, ?_⟩
          intro r hr
          rw [← h1] at hr
          cases hr
        | stuck =>
          simp only [Option.some.injEq, Prod.mk.injEq] at hrun
          obtain ⟨h1, h2, h3⟩ := hrun
          refine ⟨h2.symm, by rw [← h3]; exact hnb, fun n v => by rw [← h3]; exact hnw n v, ?_⟩
          intro r hr
          rw [← h1] at hr
          cases hr
    · rw [if_neg hf] at hrun
      simp only [Option.some.injEq, Prod.mk.injEq] at hrun
      obtain ⟨h1, h2, h3⟩ := hrun
      refine ⟨h2.symm, by rw [← h3]; exact List.not_mem_nil _,
        fun n v => by rw [← h3]; exact List.not_mem_nil _, ?_⟩
      intro r hr
      rw [← h1] at hr
      injection hr with h4
      exact h4.symm

/-- Witness for C3 at a concrete run with the stored token `stored-tok`. -/
theorem bootstrapServers_skip_returns_stored_witness :
    ("stored-tok" : String) ≠ "" ∧
    bootstrapServers sampleEnv ["10.0.0.1"] "stored-tok" "boot-secret" =
      some (Outcome.ok "stored-tok", sampleEnv.k8sStore, ([] : List Call)) ∧
    Call.bootstrapCall ∉ ([] : List Call) ∧
    Call.secretWrite "boot-secret" "tok123" ∉ ([] : List Call) ∧
    ("stored-tok" : String) = "stored-tok" := by
  refine ⟨by decide, by rfl, ?_, ?_, ?_⟩
  · exact (bootstrapServers_skip_returns_stored sampleEnv ["10.0.0.1"] "stored-tok"
      "boot-secret" (by decide) (Outcome.ok "stored-tok") sampleEnv.k8sStore []
      (by rfl)).2.1
  · exact (bootstrapServers_skip_returns_stored sampleEnv ["10.0.0.1"] "stored-tok"
      "boot-secret" (by decide) (Outcome.ok "stored-tok") sampleEnv.k8sStore []
      (by rfl)).2.2.1 "boot-secret" "tok123"
  · exact (bootstrapServers_skip_returns_stored sampleEnv ["10.0.0.1"] "stored-tok"
      "boot-secret" (by decide) (Outcome.ok "stored-tok") sampleEnv.k8sStore []
      (by rfl)).2.2.2 "stored-tok" rfl

/-- `takeWhile` passes over a prefix whose elements all satisfy the predicate. -/
theorem takeWhile_append_all {α : Type} (p : α → Bool) (l₁ l₂ : List α)
    (h : ∀ a ∈ l₁, p a = true) :
    (l₁ ++ l₂).takeWhile p = l₁ ++ l₂.takeWhile p := by
  induction l₁ with
  | nil => simp
  | cons a l ih =>
    simp only [List.cons_append, List.takeWhile_cons, h a (List.mem_cons_self a l),
      if_true]
    rw [ih fun b hb => h b (List.mem_cons_of_mem a hb)]

/-- The per-server loop never issues a token-list fetch. -/
theorem provisionServers_no_tokenList (env : Env) (tok pol : String)
    (toks : List TokenEntry) (addrs : List String) :
    (provisionServers env tok pol toks addrs).2.countP isTokenListCall = 0 := by
  rw [List.countP_eq_zero]
  intro c hc
  obtain ⟨h, _, hcc⟩ := provisionServers_mem env tok pol toks addrs c hc
  rcases provisionServer_mem_shape env tok pol toks h c hcc with
    ⟨cfg, rfl⟩ | ⟨rfl, _⟩ | ⟨s, rfl⟩ <;> simp [isTokenListCall]

/-- C7: whenever a `setServerTokens` run reaches the token-list fetch (the
loop-head client, the rule rendering and the policy upsert succeeded), the
fetch appears exactly once in the whole trace, and everything before it is a
setup call — no token creation or agent push precedes it, and no fetch ever
recurs inside the per-server loop; every reuse decision consults only that one
pre-fetched list. -/
theorem setServerTokens_fetch_once (env : Env) (first : String) (rest : List String)
    (tok : String) (p : ACLPolicy) (pcalls : List Call) (toks : List TokenEntry)
    (res : Outcome Unit) (calls : List Call)
    (hnc : env.newClient { env.baseConfig with
      address := serverHTTPAddr env first, token := tok } = none)
    (hpol : setServerPolicy env = (.ok p, pcalls))
    (htoks : env.tokenListResult = Except.ok toks)
    (hrun : setServerTokens env (first :: rest) tok = some (res, calls)) :
    calls.countP isTokenListCall = 1 ∧
    (calls.takeWhile (fun c => !isTokenListCall c)).countP isPerServerCall = 0 := by
  have hpc := setServerPolicy_calls env (.ok p) pcalls hpol
  rw [setServerTokens_eq_ok env first rest tok p pcalls toks hnc hpol htoks] at hrun
  injection hrun with h1
  injection h1 with h1 h2
  have hp0 : pcalls.countP isTokenListCall = 0 := by
    rw [List.countP_eq_zero]
    intro c hc
    rw [hpc c hc]
    decide
  have hs0 : (provisionServers env tok p.Name toks (first :: rest)).2.countP
      isTokenListCall = 0 := provisionServers_no_tokenList env tok p.Name toks (first :: rest)
  constructor
  · rw [← h2]
    simp [List.countP_cons, List.countP_append, hp0, hs0, isTokenListCall]
  · rw [← h2]
    have htw : ((Call.newClient { env.baseConfig with
          address := serverHTTPAddr env first, token := tok } ::
        (pcalls ++ Call.tokenList ::
          (provisionServers env tok p.Name toks (first :: rest)).2)).takeWhile
            (fun c => !isTokenListCall c)) =
        Call.newClient { env.baseConfig with
          address := serverHTTPAddr env first, token := tok } :: (pcalls ++ []) := by
      rw [List.takeWhile_cons]
      simp only [isTokenListCall, Bool.not_false, if_true]
      rw [takeWhile_append_all _ pcalls _ (fun a ha => by rw [hpc a ha]; rfl)]
      rw [List.takeWhile_cons]
      simp [isTokenListCall]
    rw [htw]
    rw [List.countP_eq_zero]
    intro c hc
    rcases List.mem_cons.mp hc with rfl | hc2
    · intro hfalse
      exact Bool.noConfusion hfalse
    · rw [List.append_nil] at hc2
      rw [hpc c hc2]
      decide

/-- Witness for C7 at a concrete run. -/
theorem setServerTokens_fetch_once_witness :
    (sampleEnv.tokenListResult = Except.ok [] ∧
     setServerTokens sampleEnv ["10.0.0.1"] "root" = some (Outcome.ok (), c7WitCalls)) ∧
    c7WitCalls.countP isTokenListCall = 1 ∧
    (c7WitCalls.takeWhile (fun c => !isTokenListCall c)).countP isPerServerCall = 0 :=
  ⟨⟨rfl, by rfl⟩,
   setServerTokens_fetch_once sampleEnv "10.0.0.1" [] "root"
     { Name := "agent-token", Description := "Agent Token Policy", Rules := "agent-rules" }
     [Call.policyUpsert "agent-token"] [] (Outcome.ok ()) c7WitCalls
     rfl (by rfl) rfl (by rfl)⟩

/-- A retry loop that completed consumed at least one attempt. -/
theorem retryLoopCalls_ne_zero {α : Type} (l : List (Except String α)) (a : α)
    (h : retryLoop l = LoopResult.done a) : retryLoopCalls l ≠ 0 := by
  induction l with
  | nil => cases h
  | cons x rest ih =>
    cases x with
    | ok b => simp [retryLoopCalls]
    | error e => simp [retryLoopCalls]

/-- A per-server iteration that completed with a non-empty lookup result
pushed exactly that reused secret to its server. -/
theorem provisionServer_ok_reuse (env : Env) (tok pol : String) (toks : List TokenEntry)
    (host : String) (hcalls : List Call)
    (hrun : provisionServer env tok pol toks host = (.ok (), hcalls))
    (hfound : findServerTokenSecret toks pol (serverTokenDescription host) ≠ "") :
    Call.agentTokenUpdate host
      (findServerTokenSecret toks pol (serverTokenDescription host)) ∈ hcalls := by
  simp only [provisionServer] at hrun
  split at hrun
  · injection hrun with h1 h2
    cases h1
  · split at hrun
    · rename_i hf
      exact absurd hf hfound
    · split at hrun
      · injection hrun with h1 h2
        cases h1
      · rename_i a hdone
        injection hrun with h1 h2
        rw [← h2]
        apply List.mem_cons_of_mem
        rw [List.mem_replicate]
        exact ⟨retryLoopCalls_ne_zero _ _ hdone, rfl⟩

/-- A per-server iteration that completed with an empty lookup result created
the token for its server, bound to exactly the agent policy. -/
theorem provisionServer_ok_create (env : Env) (tok pol : String) (toks : List TokenEntry)
    (host : String) (hcalls : List Call)
    (hrun : provisionServer env tok pol toks host = (.ok (), hcalls))
    (hfound : findServerTokenSecret toks pol (serverTokenDescription host) = "") :
    Call.tokenCreate host (serverTokenDescription host) [pol] ∈ hcalls := by
  simp only [provisionServer] at hrun
  split at hrun
  · injection hrun with h1 h2
    cases h1
  · split at hrun
    · split at hrun
      · injection hrun with h1 h2
        cases h1
      · rename_i secret hcreate
        split at hrun
        · injection hrun with h1 h2
          cases h1
        · injection hrun with h1 h2
          rw [← h2]
          apply List.mem_cons_of_mem
          apply List.mem_append_left
          rw [List.mem_replicate]
          exact ⟨retryLoopCalls_ne_zero _ _ hcreate, rfl⟩
    · rename_i hf
      exact absurd hfound hf

/-- In a completed per-server loop every listed address had its own completed
iteration whose calls all appear in the loop's trace. -/
theorem provisionServers_ok_each (env : Env) (tok pol : String) (toks : List TokenEntry)
    (addrs : List String) (calls : List Call) (host : String)
    (hrun : provisionServers env tok pol toks addrs = (.ok (), calls))
    (hmem : host ∈ addrs) :
    ∃ hcalls, provisionServer env tok pol toks host = (.ok (), hcalls) ∧
      ∀ c ∈ hcalls, c ∈ calls := by
  induction addrs generalizing calls with
  | nil => cases hmem
  | cons a rest ih =>
    simp only [provisionServers] at hrun
    rcases hp : provisionServer env tok pol toks a with ⟨r, acalls⟩
    rw [hp] at hrun
    cases r with
    | ok u =>
      rcases hq : provisionServers env tok pol toks rest with ⟨r2, calls2⟩
      rw [hq] at hrun
      injection hrun with h1 h2
      rcases List.mem_cons.mp hmem with rfl | hm2
      · exact ⟨acalls, hp, fun c hcc => by rw [← h2]; exact List.mem_append_left _ hcc⟩
      · have hr2 : r2 = Outcome.ok () := h1
        have hq2 : provisionServers env tok pol toks rest = (.ok (), calls2) := by
          rw [hq, hr2]
        obtain ⟨hcalls, hph, hsub⟩ := ih calls2 hq2 hm2
        exact ⟨hcalls, hph, fun c hcc => by
          rw [← h2]; exact List.mem_append_right _ (hsub c hcc)⟩
    | err e =>
      injection hrun with h1 h2
      cases h1
    | stuck =>
      injection hrun with h1 h2
      cases h1

/-- No token-create call for a host whose lookup result is non-empty ever
appears in the per-server loop's trace. -/
theorem provisionServers_no_create_of_found (env : Env) (tok pol : String)
    (toks : List TokenEntry) (addrs : List String) (host : String)
    (hfound : findServerTokenSecret toks pol (serverTokenDescription host) ≠ "") :
    ∀ ps, Call.tokenCreate host (serverTokenDescription host) ps ∉
      (provisionServers env tok pol toks addrs).2 := by
  intro ps hmem
  obtain ⟨h, _, hcc⟩ := provisionServers_mem env tok pol toks addrs _ hmem
  rcases provisionServer_mem_shape env tok pol toks h _ hcc with
    ⟨cfg, hce⟩ | ⟨hce, hf⟩ | ⟨s, hce⟩
  · cases hce
  · injection hce with e1 e2 e3
    rw [← e1] at hf
    exact hfound hf
  · cases hce

/-- C4 (amended): in a completed `setServerTokens` run, for every server
address of the list: when the pre-fetched list's lookup — the first token
whose policy set is exactly the agent policy and whose description is the
deterministic one for that address — yields a non-empty secret, no
token-create call for that address appears anywhere in the trace while the
push-to-agent call carrying exactly that secret does; when the lookup yields
the empty string (no matching token, or the first match stores the empty
secret), a token bound to exactly the agent policy with that description is
created for it.  (The unamended claim fails when a matching token carries an
empty SecretID: the code then still creates a token.) -/
theorem setServerTokens_reuse_or_create (env : Env) (first : String) (rest : List String)
    (tok : String) (p : ACLPolicy) (pcalls : List Call) (toks : List TokenEntry)
    (calls : List Call) (host : String)
    (hnc : env.newClient { env.baseConfig with
      address := serverHTTPAddr env first, token := tok } = none)
    (hpol : setServerPolicy env = (.ok p, pcalls))
    (htoks : env.tokenListResult = Except.ok toks)
    (hrun : setServerTokens env (first :: rest) tok = some (.ok (), calls))
    (hmem : host ∈ first :: rest) :
    (findServerTokenSecret toks p.Name (serverTokenDescription host) ≠ "" →
      (∀ ps, Call.tokenCreate host (serverTokenDescription host) ps ∉ calls) ∧
      Call.agentTokenUpdate host
        (findServerTokenSecret toks p.Name (serverTokenDescription host)) ∈ calls) ∧
    (findServerTokenSecret toks p.Name (serverTokenDescription host) = "" →
      Call.tokenCreate host (serverTokenDescription host) [p.Name] ∈ calls) := by
  have hpc := setServerPolicy_calls env (.ok p) pcalls hpol
  rcases hps : provisionServers env tok p.Name toks (first :: rest) with ⟨r2, scalls⟩
  rw [setServerTokens_eq_ok env first rest tok p pcalls toks hnc hpol htoks, hps] at hrun
  injection hrun with h1
  injection h1 with h1 h2
  have hr2 : r2 = Outcome.ok () := h1
  have hrun2 : provisionServers env tok p.Name toks (first :: rest) = (.ok (), scalls) := by
    rw [hps, hr2]
  constructor
  · intro hf
    constructor
    · intro ps hmemc
      rw [← h2] at hmemc
      rcases List.mem_cons.mp hmemc with hce | hc2
      · cases hce
      · rcases List.mem_append.mp hc2 with h3 | h3
        · have := hpc _ h3
          cases this
        · rcases List.mem_cons.mp h3 with hce | h4
          · cases hce
          · have hnone := provisionServers_no_create_of_found env tok p.Name toks
              (first :: rest) host hf ps
            rw [hrun2] at hnone
            exact hnone h4
    · obtain ⟨hcalls, hph, hsub⟩ := provisionServers_ok_each env tok p.Name toks
        (first :: rest) scalls host hrun2 hmem
      have hpush := provisionServer_ok_reuse env tok p.Name toks host hcalls hph hf
      rw [← h2]
      apply List.mem_cons_of_mem
      apply List.mem_append_right
      apply List.mem_cons_of_mem
      exact hsub _ hpush
  · intro hf
    obtain ⟨hcalls, hph, hsub⟩ := provisionServers_ok_each env tok p.Name toks
      (first :: rest) scalls host hrun2 hmem
    have hcreate := provisionServer_ok_create env tok p.Name toks host hcalls hph hf
    rw [← h2]
    apply List.mem_cons_of_mem
    apply List.mem_append_right
    apply List.mem_cons_of_mem
    exact hsub _ hcreate

/-- C4 counterexample: a pre-fetched token whose policy set is exactly the
agent policy and whose description matches the deterministic description for
10.0.0.1, but whose SecretID is the empty string, does not suppress the
token-create call — the completed run's trace still contains a create for that
server, contradicting the claim as stated. -/
theorem serverToken_reuse_counterexample :
    (c4CexToken.Policies == ["agent-token"]) = true ∧
    (c4CexToken.Description == serverTokenDescription "10.0.0.1") = true ∧
    c4CexEnv.tokenListResult = Except.ok [c4CexToken] ∧
    setServerTokens c4CexEnv ["10.0.0.1"] "root" = some (Outcome.ok (), c4CexCalls) ∧
    Call.tokenCreate "10.0.0.1" (serverTokenDescription "10.0.0.1") ["agent-token"] ∈
      c4CexCalls := by
  refine ⟨by decide, by decide, rfl, by rfl, by decide⟩

/-- Witness for the amended C4 at a concrete run whose pre-fetched list holds
a matching token with the non-empty secret `reused-secret`: no create call,
and the push carries that secret. -/
theorem setServerTokens_reuse_or_create_witness :
    (c4WitEnv.tokenListResult = Except.ok [c4WitToken] ∧
     setServerTokens c4WitEnv ["10.0.0.1"] "root" = some (Outcome.ok (), c4WitCalls) ∧
     findServerTokenSecret [c4WitToken] "agent-token"
       (serverTokenDescription "10.0.0.1") ≠ "") ∧
    Call.tokenCreate "10.0.0.1" (serverTokenDescription "10.0.0.1") ["agent-token"] ∉
      c4WitCalls ∧
    Call.agentTokenUpdate "10.0.0.1"
      (findServerTokenSecret [c4WitToken] "agent-token"
        (serverTokenDescription "10.0.0.1")) ∈ c4WitCalls := by
  refine ⟨⟨rfl, by rfl, by decide⟩, ?_, ?_⟩
  · exact ((setServerTokens_reuse_or_create c4WitEnv "10.0.0.1" [] "root"
      { Name := "agent-token", Description := "Agent Token Policy", Rules := "agent-rules" }
      [Call.policyUpsert "agent-token"] [c4WitToken] c4WitCalls "10.0.0.1"
      rfl (by rfl) rfl (by rfl) (List.mem_cons_self _ _)).1 (by decide)).1 ["agent-token"]
  · exact ((setServerTokens_reuse_or_create c4WitEnv "10.0.0.1" [] "root"
      { Name := "agent-token", Description := "Agent Token Policy", Rules := "agent-rules" }
      [Call.policyUpsert "agent-token"] [c4WitToken] c4WitCalls "10.0.0.1"
      rfl (by rfl) rfl (by rfl) (List.mem_cons_self _ _)).1 (by decide)).2
